import Mathlib

/-
Verification of the polyclaw trading library.

This file gives a shallow embedding, in Lean 4, of the parts of the polyclaw
repository that the verified properties talk about:

  - lib/coverage.py   : coverage metrics, tier classification, portfolio building
  - lib/arbitrage.py  : arbitrage portfolios and capital allocation
  - lib/clob_client.py: order-book liquidity check and robust selling
  - lib/llm_client.py : retrying completion client
  - scripts/hedge.py  : JSON extraction from oracle replies and cover derivation

Python floats are modelled as rationals (so arithmetic is exact); the Python
builtin round(x, n) is modelled by rounding x * 10^n to the nearest integer
(Mathlib round, which rounds half up; the Python builtin rounds half to even,
and the two agree away from exact ties, which is the case at every concrete
input used below).  Fallible operations (network calls, order posting, JSON
parsing) are modelled by Except/Option-valued parameters.
-/

namespace Polyclaw

/-- Python round(x, n): round to n decimal digits. -/
def roundq (x : ℚ) (n : ℕ) : ℚ := ((round (x * (10 : ℚ) ^ n) : ℤ) : ℚ) / (10 : ℚ) ^ n

/-! ## lib/coverage.py -/

/-- MIN_COVERAGE constant from lib/coverage.py. -/
def MIN_COVERAGE : ℚ := 85 / 100

/-- NECESSARY_PROBABILITY constant from lib/coverage.py. -/
def NECESSARY_PROBABILITY : ℚ := 98 / 100

/-- TIER_THRESHOLDS table from lib/coverage.py:
(coverage_threshold, tier_number, label, description). -/
def TIER_THRESHOLDS : List (ℚ × ℕ × String × String) :=
  [(95 / 100, 1, "HIGH", "near-arbitrage"),
   (90 / 100, 2, "GOOD", "strong hedge"),
   (85 / 100, 3, "MODERATE", "decent hedge"),
   (0, 4, "LOW", "speculative")]

/-- Result dict of calculate_coverage_metrics. -/
structure CoverageMetrics where
  coverage : ℚ
  loss_probability : ℚ
  expected_profit : ℚ
deriving DecidableEq, Repr

/-- calculate_coverage_metrics from lib/coverage.py: coverage, loss probability
and expected profit, each rounded to 4 decimal places. -/
def calculate_coverage_metrics (target_price cover_probability total_cost : ℚ) :
    CoverageMetrics :=
  let p_target := target_price
  let p_not_target := 1 - target_price
  let coverage := p_target + p_not_target * cover_probability
  let loss_probability := p_not_target * (1 - cover_probability)
  let expected_profit := coverage - total_cost
  { coverage := roundq coverage 4
    loss_probability := roundq loss_probability 4
    expected_profit := roundq expected_profit 4 }

/-- Unrounded coverage value computed inside calculate_coverage_metrics
(lib/coverage.py line 67), before the output rounding. -/
def coverageRaw (target_price cover_probability : ℚ) : ℚ :=
  target_price + (1 - target_price) * cover_probability

/-- Loop over TIER_THRESHOLDS in classify_tier: first row whose threshold is
at most the coverage wins; fall through to (4, LOW). -/
def tierLoop : List (ℚ × ℕ × String × String) → ℚ → ℕ × String
  | [], _ => (4, "LOW")
  | (threshold, tier, label, _) :: rest, coverage =>
    if threshold ≤ coverage then (tier, label) else tierLoop rest coverage

/-- classify_tier from lib/coverage.py. -/
def classify_tier (coverage total_cost : ℚ) : ℕ × String :=
  if 1 ≤ total_cost then (4, "LOW")
  else tierLoop TIER_THRESHOLDS coverage

/-- Market data used by the embedded functions.  The source dataclass
(lib/gamma_client.py) carries further fields (volume, liquidity, end_date,
active, closed, resolved, outcome, condition_id) that none of the embedded
functions read; they are omitted here. -/
structure Market where
  id : String
  question : String
  slug : String
  yes_token_id : String
  no_token_id : String
  yes_price : ℚ
  no_price : ℚ
deriving DecidableEq, Repr

/-- Portfolio dict returned by build_portfolio (lib/coverage.py). -/
structure Portfolio where
  target_id : String
  target_question : String
  target_slug : String
  target_position : String
  target_price : ℚ
  cover_id : String
  cover_question : String
  cover_slug : String
  cover_position : String
  cover_price : ℚ
  cover_probability : ℚ
  relationship : String
  total_cost : ℚ
  profit : ℚ
  profit_pct : ℚ
  coverage : ℚ
  loss_probability : ℚ
  expected_profit : ℚ
  tier : ℕ
  tier_label : String
deriving DecidableEq, Repr

/-- build_portfolio from lib/coverage.py.  The dead sanity-margin block at
lines 155-161 of the source (which only executes a pass statement) is not
represented; the live price sanity filter at lines 171-181 and every
subsequent step are translated directly. -/
def build_portfolio (target_market cover_market : Market)
    (target_position cover_position : String)
    (cover_probability : ℚ) (relationship : String) : Option Portfolio :=
  let target_price :=
    if target_position == "YES" then target_market.yes_price else target_market.no_price
  let cover_price :=
    if cover_position == "YES" then cover_market.yes_price else cover_market.no_price
  let total_cost := target_price + cover_price
  -- Skip invalid costs
  if total_cost ≤ 0 ∨ 2 < total_cost then none
  else
    -- Price sanity filter for claimed-necessary relationships
    let max_possible_cond_prob :=
      if target_price < 1 then cover_price / (1 - target_price) else 1
    if 95 / 100 ≤ cover_probability ∧ max_possible_cond_prob < 1 / 2 then none
    else
      let metrics := calculate_coverage_metrics target_price cover_probability total_cost
      if metrics.coverage < MIN_COVERAGE then none
      else
        let tl := classify_tier metrics.coverage total_cost
        some
          { target_id := target_market.id
            target_question := target_market.question
            target_slug := target_market.slug
            target_position := target_position
            target_price := roundq target_price 4
            cover_id := cover_market.id
            cover_question := cover_market.question
            cover_slug := cover_market.slug
            cover_position := cover_position
            cover_price := roundq cover_price 4
            cover_probability := cover_probability
            relationship := relationship
            total_cost := roundq total_cost 4
            profit := roundq (1 - total_cost) 4
            profit_pct := if 0 < total_cost then roundq ((1 - total_cost) / total_cost * 100) 2 else 0
            coverage := metrics.coverage
            loss_probability := metrics.loss_probability
            expected_profit := metrics.expected_profit
            tier := tl.1
            tier_label := tl.2 }

/-- Tier selection as the specification words it: the tier of the highest
threshold not exceeding the coverage, from the descending table
0.95 to 1/HIGH, 0.90 to 2/GOOD, 0.85 to 3/MODERATE, else 4/LOW. -/
def tierSpec (coverage : ℚ) : ℕ × String :=
  if 95 / 100 ≤ coverage then (1, "HIGH")
  else if 90 / 100 ≤ coverage then (2, "GOOD")
  else if 85 / 100 ≤ coverage then (3, "MODERATE")
  else (4, "LOW")

/-! ## lib/arbitrage.py -/

/-- ArbitrageLeg dataclass from lib/arbitrage.py. -/
structure ArbitrageLeg where
  token_id : String
  side : String
  price : ℚ
  market_id : String
  question : String
deriving DecidableEq, Repr

/-- ExecutionStep dataclass from lib/arbitrage.py. -/
structure ExecutionStep where
  market_id : String
  position : String
  amount : ℚ
  description : String
deriving DecidableEq, Repr

/-- ArbitragePortfolio dataclass from lib/arbitrage.py. -/
structure ArbitragePortfolio where
  type : String
  legs : List ArbitrageLeg
  total_cost : ℚ
  profit_margin : ℚ
  description : String
deriving DecidableEq, Repr

/-- ArbitragePortfolio.get_execution_steps from lib/arbitrage.py: one step per
leg, in order, allocating total_capital * (leg.price / total_cost) to each.
The source builds the list with a for loop appending one step per leg, which
is the map below.  Note that in Python a zero total_cost makes the division
raise ZeroDivisionError; in this rational embedding division by zero yields
zero amounts instead, and every theorem about the allocation assumes a
nonzero total_cost. -/
def ArbitragePortfolio.get_execution_steps (p : ArbitragePortfolio)
    (total_capital : ℚ) : List ExecutionStep :=
  p.legs.map fun leg =>
    { market_id := leg.market_id
      position := leg.side
      amount := total_capital * (leg.price / p.total_cost)
      description := "Enter " ++ leg.side ++ " on " ++ leg.market_id ++ " via Split" }

/-- calculate_split_arbitrage from lib/arbitrage.py: buy aggregate NO plus
every component YES; total cost accumulated leg by leg. -/
def calculate_split_arbitrage (agg_market : Market) (component_markets : List Market) :
    ArbitragePortfolio :=
  let aggLeg : ArbitrageLeg :=
    { token_id := agg_market.no_token_id
      side := "NO"
      price := agg_market.no_price
      market_id := agg_market.id
      question := agg_market.question }
  let legs := aggLeg :: component_markets.map fun m =>
    { token_id := m.yes_token_id
      side := "YES"
      price := m.yes_price
      market_id := m.id
      question := m.question }
  let total_cost := component_markets.foldl (fun acc m => acc + m.yes_price) agg_market.no_price
  { type := "SPLIT"
    legs := legs
    total_cost := total_cost
    profit_margin := 1 - total_cost
    description := "Hierarchical Split on " ++ agg_market.question }

/-- calculate_negrisk_arbitrage from lib/arbitrage.py: buy YES on every
mutually exclusive outcome; total cost accumulated leg by leg from 0. -/
def calculate_negrisk_arbitrage (markets : List Market) : ArbitragePortfolio :=
  let legs := markets.map fun m =>
    ({ token_id := m.yes_token_id
       side := "YES"
       price := m.yes_price
       market_id := m.id
       question := m.question } : ArbitrageLeg)
  let total_cost := markets.foldl (fun acc m => acc + m.yes_price) 0
  { type := "NEGRISK"
    legs := legs
    total_cost := total_cost
    profit_margin := 1 - total_cost
    description := "Negative Risk on Event group (" ++ toString markets.length ++ " outcomes)" }

/-! ## lib/clob_client.py -/

/-- Containment of a pattern in a character list (Python `pat in s`). -/
def charsContain : List Char → List Char → Bool
  | pat, [] => pat.isEmpty
  | pat, c :: rest => pat.isPrefixOf (c :: rest) || charsContain pat rest

/-- Python substring test `pat in s`. -/
def strContains (s pat : String) : Bool := charsContain pat.toList s.toList

/-- ASCII lowercasing of one character (the Python str.lower on the ASCII
strings the embedded code compares). -/
def charLower (c : Char) : Char :=
  if 'A' ≤ c ∧ c ≤ 'Z' then Char.ofNat (c.toNat + 32) else c

/-- Python str.lower restricted to ASCII. -/
def strLower (s : String) : String := String.mk (s.toList.map charLower)

/-- ASCII whitespace test (the characters Python str.strip removes from the
oracle replies handled here). -/
def isWspace (c : Char) : Bool := c = ' ' || c = '\t' || c = '\n' || c = '\r'

/-- Python str.strip: drop whitespace from both ends. -/
def strTrim (s : String) : String :=
  String.mk (((s.toList.dropWhile isWspace).reverse.dropWhile isWspace).reverse)

/-- Worker for strSplitOn: walks the string once; skip counts separator
characters still to be consumed after a match. -/
def splitGo (sep : List Char) : List Char → List Char → ℕ → List (List Char)
  | [], acc, _ => [acc.reverse]
  | c :: rest, acc, skip =>
    match skip with
    | k + 1 => splitGo sep rest acc k
    | 0 =>
      if sep.isPrefixOf (c :: rest) ∧ ¬sep.isEmpty then
        acc.reverse :: splitGo sep rest [] (sep.length - 1)
      else splitGo sep rest (c :: acc) 0

/-- Python str.split with a nonempty separator. -/
def strSplitOn (s sep : String) : List String :=
  (splitGo sep.toList s.toList [] 0).map String.mk

/-- CLOB_MAX_RETRIES from lib/clob_client.py: the value of the environment
variable of the same name, defaulting to 5 when unset; the default is what
is modelled. -/
def CLOB_MAX_RETRIES : ℕ := 5

/-- ClobClientWrapper._is_cloudflare_block: a 403 mentioning cloudflare or
blocked. -/
def is_cloudflare_block (error_msg : String) : Bool :=
  strContains error_msg "403" &&
    (strContains (strLower error_msg) "cloudflare" ||
     strContains (strLower error_msg) "blocked")

/-- Price acceptance condition of check_liquidity for one book entry:
a sell accepts bids at or above the limit, a buy accepts asks at or below
the limit. -/
def priceOk (isSell : Bool) (limit_price : ℚ) (e : ℚ × ℚ) : Bool :=
  if isSell then limit_price ≤ e.1 else e.1 ≤ limit_price

/-- Loop of check_liquidity: walk the chosen book side accumulating fillable
size, return true as soon as the accumulated size reaches the requested
amount, stop at the first entry failing the price condition, return false
when the book is exhausted. -/
def liqLoop (isSell : Bool) (limit_price amount : ℚ) :
    List (ℚ × ℚ) → ℚ → Bool
  | [], _ => false
  | (price, size) :: rest, total_fillable =>
    let isValidPrice := priceOk isSell limit_price (price, size)
    if isValidPrice then
      let total := total_fillable + size
      if amount ≤ total then true else liqLoop isSell limit_price amount rest total
    else false

/-- ClobClientWrapper.check_liquidity from lib/clob_client.py.  The order
book (bids and asks, already parsed to numbers) is passed explicitly in
place of the network fetch by token id. -/
def check_liquidity (bids asks : List (ℚ × ℚ)) (side : String)
    (amount min_price : ℚ) : Bool :=
  let orders := if strLower side == "sell" then bids else asks
  liqLoop (strLower side == "sell") min_price amount orders 0

/-- Accumulated size of the prefix of the book that satisfies the price
condition (the fillable size the scan of check_liquidity can see). -/
def fillablePrefixSum (isSell : Bool) (limit_price : ℚ) (orders : List (ℚ × ℚ)) : ℚ :=
  ((orders.takeWhile (priceOk isSell limit_price)).map Prod.snd).sum

/-- Record of one run of the sell_fok retry loop: the outcome fields of the
source function together with counts of the side effects performed
(post_order calls, _refresh_http_client calls, time.sleep calls). -/
structure FokRun where
  orderId : Option String
  filled : Bool
  lastError : Option String
  posts : ℕ
  refreshes : ℕ
  sleeps : ℕ
deriving DecidableEq, Repr

/-- Retry loop of ClobClientWrapper.sell_fok.  The outcome of the attempt
with index i (create_order plus post_order, which either returns an order id
or raises with an error message) is supplied by outcomes i.  fuel is the
number of loop iterations remaining, attempt the current loop index, le the
accumulated last_error. -/
def sellFokLoop (proxy : Bool) (outcomes : ℕ → Except String String) :
    ℕ → ℕ → Option String → FokRun
  | 0, _, le => { orderId := none, filled := false, lastError := le,
                  posts := 0, refreshes := 0, sleeps := 0 }
  | fuel + 1, attempt, le =>
    -- refresh HTTP client and pause, but only when retrying and a proxy is set
    let pre : ℕ := if 0 < attempt ∧ proxy then 1 else 0
    match outcomes attempt with
    | .ok oid => { orderId := some oid, filled := true, lastError := le,
                   posts := 1, refreshes := pre, sleeps := pre }
    | .error e =>
      if is_cloudflare_block e && proxy then
        let r := sellFokLoop proxy outcomes fuel (attempt + 1) (some e)
        { orderId := r.orderId, filled := r.filled, lastError := r.lastError,
          posts := r.posts + 1, refreshes := r.refreshes + pre, sleeps := r.sleeps + pre }
      else
        { orderId := none, filled := false, lastError := some e,
          posts := 1, refreshes := pre, sleeps := pre }

/-- Error message built by sell_fok when the IP is blocked by the network
layer (a distinct, actionable message: the tokens are safe, sell manually). -/
def cloudflareBlockMsg : String :=
  "IP blocked by Cloudflare. Your split succeeded - you have the tokens. " ++
  "Sell manually at polymarket.com or try with HTTPS_PROXY env var."

/-- Two decimal formatting of a nonnegative rational whose denominator
divides 100 (Python f-string .2f on such values). -/
def fmt2 (q : ℚ) : String :=
  let c := (round (q * 100) : ℤ).toNat
  toString (c / 100) ++ "." ++ (if c % 100 < 10 then "0" ++ toString (c % 100) else toString (c % 100))

/-- Final error message selection of sell_fok, from the last error seen.
A none last error can only happen with zero retries, which the source never
runs with (the default bound is 5); none is returned for it here. -/
def sellFokMsg (sell_price : ℚ) (lastError : Option String) : Option String :=
  match lastError with
  | none => none
  | some e =>
    if is_cloudflare_block e then some cloudflareBlockMsg
    else if strContains (strLower e) "no match" || strContains (strLower e) "insufficient" then
      some ("No liquidity at $" ++ fmt2 sell_price ++ " - tokens kept, sell manually")
    else some e

/-- ClobClientWrapper.sell_fok from lib/clob_client.py, returning the run
bookkeeping together with the (order_id, filled, error_message) triple. -/
def sell_fok (maxRetries : ℕ) (proxy : Bool) (outcomes : ℕ → Except String String)
    (price : ℚ) : FokRun × (Option String × Bool × Option String) :=
  let sell_price := roundq (max (price * (9 / 10)) (1 / 100)) 2
  let r := sellFokLoop proxy outcomes maxRetries 0 none
  (r, if r.filled then (r.orderId, true, none)
      else (none, false, sellFokMsg sell_price r.lastError))

/-- Arguments passed to create_order for the fallback GTC sell. -/
structure OrderArgsRec where
  price : ℚ
  size : ℚ
  side : String
deriving DecidableEq, Repr

/-- Insufficient liquidity message of sell_robust (the amount is rendered
with the rational printer where Python prints a float). -/
def insufficientLiquidityMsg (amount : ℚ) (err : Option String) : String :=
  "Insufficient liquidity to sell complete " ++ toString amount ++
    " even at 0.05. FOK error: " ++
    (match err with | some e => e | none => "None")

/-- ClobClientWrapper.sell_robust from lib/clob_client.py.  The FOK attempt
result, the order book used by the liquidity re-check, and the outcome of the
fallback GTC create_order plus post_order call are supplied as parameters.
Returns the (order_id, filled, error_message) triple together with the
arguments passed to create_order for the GTC fallback (none when no GTC
order was attempted). -/
def sell_robust (fokResult : Option String × Bool × Option String)
    (bids asks : List (ℚ × ℚ)) (gtcOutcome : Except String String)
    (amount price : ℚ) :
    (Option String × Bool × Option String) × Option OrderArgsRec :=
  let fok_id := fokResult.1
  let filled := fokResult.2.1
  let err := fokResult.2.2
  if filled then ((fok_id, true, none), none)
  else
    -- re-check liquidity for the whole amount at the 0.05 floor
    let has_liquidity := check_liquidity bids asks "sell" amount (5 / 100)
    let limit_price := roundq (max (price * (8 / 10)) (2 / 100)) 2
    if !has_liquidity then
      ((none, false, some (insufficientLiquidityMsg amount err)), none)
    else
      match gtcOutcome with
      | .ok oid =>
        ((some oid, true, some "Placed Aggressive GTC Limit"),
         some { price := limit_price, size := amount, side := "SELL" })
      | .error e =>
        ((none, false, some ("GTC Limit failed: " ++ e)),
         some { price := limit_price, size := amount, side := "SELL" })

/-! ## lib/llm_client.py -/

/-- LLM_MAX_RETRIES constant from lib/llm_client.py. -/
def LLM_MAX_RETRIES : ℕ := 3

/-- Outcome of one POST to the completions endpoint: the response content on
success, an HTTPStatusError with the given status code, or a transport-level
RequestError with a message. -/
inductive ReqOutcome where
  | success (content : String)
  | httpStatus (code : ℕ)
  | requestError (msg : String)
deriving DecidableEq, Repr

/-- Error raised out of LLMClient.complete. -/
inductive CompleteError where
  | httpError (code : ℕ)
  | reqError (msg : String)
  | runtimeFailed
deriving DecidableEq, Repr

/-- Retry loop of LLMClient.complete.  Returns the result together with the
list of sleep durations (in seconds) performed between attempts.  fuel is the
number of loop iterations remaining; attempt the current loop index. -/
def completeGo (outcomes : ℕ → ReqOutcome) :
    ℕ → ℕ → Except CompleteError String × List ℕ
  | _, 0 => (.error .runtimeFailed, [])
  | attempt, fuel + 1 =>
    match outcomes attempt with
    | .success s => (.ok s, [])
    | .httpStatus code =>
      if code = 429 then
        -- rate limited: wait 2^attempt and retry
        let r := completeGo outcomes (attempt + 1) fuel
        (r.1, 2 ^ attempt :: r.2)
      else (.error (.httpError code), [])
    | .requestError e =>
      if attempt < LLM_MAX_RETRIES - 1 then
        -- transport error: wait 1 second and retry
        let r := completeGo outcomes (attempt + 1) fuel
        (r.1, 1 :: r.2)
      else (.error (.reqError e), [])

/-- LLMClient.complete from lib/llm_client.py, with the outcome of each POST
supplied by outcomes. -/
def complete (outcomes : ℕ → ReqOutcome) : Except CompleteError String × List ℕ :=
  completeGo outcomes 0 LLM_MAX_RETRIES

/-! ## scripts/hedge.py -/

/-- JSON values, as returned by json.loads. -/
inductive Json where
  | null
  | bool (b : Bool)
  | num (q : ℚ)
  | str (s : String)
  | arr (items : List Json)
  | obj (fields : List (String × Json))

/-- Python truthiness of a JSON value (None, False, 0, empty string, empty
list and empty dict are falsy). -/
def Json.falsy : Json → Bool
  | .null => true
  | .bool b => !b
  | .num q => q == 0
  | .str s => s == ""
  | .arr items => items.isEmpty
  | .obj fields => fields.isEmpty

/-- Regex search for r"\x7b[\s\S]*\x7d" followed by group extraction: the
segment from the first opening brace to the last closing brace after it, if
any. -/
def extractBraced (s : String) : Option String :=
  let tail := s.toList.dropWhile fun c => c ≠ '\x7b'
  if tail.isEmpty then none
  else
    let rtail := tail.reverse.dropWhile fun c => c ≠ '\x7d'
    if rtail.isEmpty then none else some (String.mk rtail.reverse)

/-- extract_json_from_response from scripts/hedge.py, with json.loads (which
returns a value or fails with JSONDecodeError) supplied as the loads
parameter.  Strips a markdown code fence if present, tries a direct parse,
then tries the first brace-delimited segment; any parse failure yields none
and no step can raise. -/
def extract_json_from_response (loads : String → Option Json) (text : String) :
    Option Json :=
  let t0 := strTrim text
  -- take the part after a json code fence opener, if present
  let t1 := (strSplitOn t0 "```json").getD 1 t0
  -- take the part before the next fence (the whole string when none)
  let t2 := strTrim ((strSplitOn t1 "```").getD 0 t1)
  match loads t2 with
  | some j => some j
  | none =>
    match extractBraced t2 with
    | some seg => loads seg
    | none => none

/-- Cover relationship derived from an oracle implication. -/
structure Cover where
  target_position : String
  cover_market : Market
  cover_position : String
  relationship : String
  probability : ℚ

/-- match_market_to_list from scripts/hedge.py: direct id match, then exact
lowercased question match, then fuzzy substring match in insertion order.
The source builds id and question dicts from the market list; association
lists in the same order stand in for them (duplicate keys, impossible for
distinct live markets, would resolve to the first rather than the last
entry). -/
def match_market_to_list (market_id market_question : String)
    (markets_by_id : List (String × Market))
    (markets_by_question : List (String × Market)) : Option Market :=
  match markets_by_id.lookup market_id with
  | some m => some m
  | none =>
    let question_lower := strTrim (strLower market_question)
    match markets_by_question.lookup question_lower with
    | some m => some m
    | none =>
      match markets_by_question.find? fun qm =>
          strContains qm.1 question_lower || strContains question_lower qm.1 with
      | some qm => some qm.2
      | none => none

/-- String access item.get(key, default) on a JSON item, as used on oracle
implication items.  A non-dict item or a non-string value under the key makes
the source raise later (str lower or dict lookup on the wrong type), which
the caller catches; that is modelled by none.  An absent key yields the
default empty string. -/
def itemStr (item : Json) (key : String) : Option String :=
  match item with
  | .obj fields =>
    match fields.lookup key with
    | none => some ""
    | some (.str s) => some s
    | some _ => none
  | _ => none

/-- Explanation text of an item: item.get with empty default, interpolated
into an f-string.  Non-string values would be formatted by str(); only the
string case matters and other values are rendered as an empty string. -/
def itemExplanation (item : Json) : String :=
  match item with
  | .obj fields =>
    match fields.lookup "explanation" with
    | some (.str s) => s
    | _ => ""
  | _ => ""

/-- One iteration of a cover-derivation loop: none means the source raised on
this item (caught by the caller), some none means the item was skipped
(continue), some (some c) appends the cover c. -/
def coverFromItem (target_market : Market)
    (markets_by_id markets_by_question : List (String × Market))
    (tpos cpos relPrefix : String) (item : Json) : Option (Option Cover) :=
  match itemStr item "market_id", itemStr item "market_question" with
  | some other_id, some other_question =>
    match match_market_to_list other_id other_question markets_by_id markets_by_question with
    | none => some none
    | some matched =>
      if matched.id == target_market.id then some none
      else some (some
        { target_position := tpos
          cover_market := matched
          cover_position := cpos
          relationship := relPrefix ++ itemExplanation item
          probability := NECESSARY_PROBABILITY })
  | _, _ => none

/-- Folds coverFromItem over a list of items, propagating a raise. -/
def coversFromItems (target_market : Market)
    (markets_by_id markets_by_question : List (String × Market))
    (tpos cpos relPrefix : String) : List Json → Option (List Cover)
  | [] => some []
  | item :: rest =>
    match coverFromItem target_market markets_by_id markets_by_question tpos cpos relPrefix item with
    | none => none
    | some oc =>
      match coversFromItems target_market markets_by_id markets_by_question tpos cpos relPrefix rest with
      | none => none
      | some cs => some (match oc with | none => cs | some c => c :: cs)

/-- Value of llm_result.get(key, []) as a list of items: an absent key gives
the empty list, a present list gives its items, and a present value of any
other type makes the iteration raise in the source (modelled as none, caught
by the caller; the degenerate iterable non-list values a real oracle never
produces are approximated the same way). -/
def jsonGetList (j : Json) (key : String) : Option (List Json) :=
  match j with
  | .obj fields =>
    match fields.lookup key with
    | none => some []
    | some (.arr items) => some items
    | some _ => none
  | _ => none

/-- derive_covers_from_implications from scripts/hedge.py: implied_by items
give YES-target covers on NO, implies items give NO-target covers on YES.
none models an exception raised while processing (always caught by the
caller, extract_implications_for_market). -/
def derive_covers_from_implications (llm_result : Json) (target_market : Market)
    (other_markets : List Market) : Option (List Cover) :=
  let markets_by_id := other_markets.map fun m => (m.id, m)
  let markets_by_question := other_markets.map fun m => (strTrim (strLower m.question), m)
  match jsonGetList llm_result "implied_by" with
  | none => none
  | some ibItems =>
    match coversFromItems target_market markets_by_id markets_by_question
        "YES" "NO" "necessary (contrapositive): " ibItems with
    | none => none
    | some ibCovers =>
      match jsonGetList llm_result "implies" with
      | none => none
      | some impItems =>
        match coversFromItems target_market markets_by_id markets_by_question
            "NO" "YES" "necessary (direct): " impItems with
        | none => none
        | some impCovers => some (ibCovers ++ impCovers)

/-- extract_implications_for_market from scripts/hedge.py.  The oracle call
(llm.complete) either returns the response text or raises; everything inside
the try block that raises is caught and turned into the empty list. -/
def extract_implications_for_market (oracleResult : Except String String)
    (loads : String → Option Json) (target_market : Market)
    (other_markets : List Market) : List Cover :=
  match oracleResult with
  | .error _ => []
  | .ok response =>
    match extract_json_from_response loads response with
    | none => []
    | some llm_result =>
      if llm_result.falsy then []
      else
        match derive_covers_from_implications llm_result target_market other_markets with
        | none => []
        | some covers => covers

/-! ## Theorems -/



/-- C1: whenever cover_probability is at least 0.95 and the bound
cover_price / (1 - target_price) (1.0 when target_price is not below 1) is
below 0.5, build_portfolio rejects the portfolio and returns none. -/
theorem sanity_filter_rejects (tm cm : Market) (tpos cpos : String) (cp : ℚ)
    (rel : String) (h1 : 95 / 100 ≤ cp)
    (h2 : (if (if tpos == "YES" then tm.yes_price else tm.no_price) < 1 then
             (if cpos == "YES" then cm.yes_price else cm.no_price) /
               (1 - (if tpos == "YES" then tm.yes_price else tm.no_price))
           else 1) < 1 / 2) :
    build_portfolio tm cm tpos cpos cp rel = none := by
  simp only [build_portfolio]
  set tp := (if (tpos == "YES") = true then tm.yes_price else tm.no_price) with htp
  set cpr := (if (cpos == "YES") = true then cm.yes_price else cm.no_price) with hcpr
  by_cases hc : tp + cpr ≤ 0 ∨ 2 < tp + cpr
  · rw [if_pos hc]
  · rw [if_neg hc, if_pos ⟨h1, h2⟩]

theorem c1_witness :
    (95 / 100 : ℚ) ≤ 98 / 100 ∧
    build_portfolio ⟨"t", "tq", "ts", "", "", 7/100, 93/100⟩
      ⟨"c", "cq", "cs", "", "", 7/100, 93/100⟩ "YES" "YES" (98/100) "r" = none :=
  ⟨by norm_num,
   sanity_filter_rejects _ _ _ _ _ _ (by norm_num) (by simp; norm_num)⟩

/-- C2: classify_tier returns tier 4 LOW whenever total_cost is at least
1.0, regardless of coverage; otherwise it returns the tier of the highest
threshold not exceeding the coverage from the descending table 0.95 to
1/HIGH, 0.90 to 2/GOOD, 0.85 to 3/MODERATE, else 4/LOW. -/
theorem classify_tier_total_cost_and_table (c tc : ℚ) :
    (1 ≤ tc → classify_tier c tc = (4, "LOW")) ∧
    (tc < 1 → classify_tier c tc = tierSpec c) := by
  constructor
  · intro h; simp only [classify_tier, if_pos h]
  · intro h
    simp only [classify_tier, if_neg (not_le.mpr h), tierLoop, TIER_THRESHOLDS, tierSpec]
    split_ifs <;> rfl

theorem c2_witness :
    classify_tier (97/100) (3/2) = (4, "LOW") ∧ classify_tier (97/100) (1/2) = (1, "HIGH") :=
  ⟨(classify_tier_total_cost_and_table _ _).1 (by norm_num),
   by
    have h := (classify_tier_total_cost_and_table (97/100) (1/2)).2 (by norm_num)
    rw [h]; norm_num [tierSpec]⟩

lemma roundq_eval {x v : ℚ} {n : ℕ} (z : ℤ)
    (h1 : (z : ℚ) ≤ x * 10 ^ n + 1 / 2) (h2 : x * 10 ^ n + 1 / 2 < z + 1)
    (h3 : (z : ℚ) / 10 ^ n = v) : roundq x n = v := by
  rw [roundq, round_eq, show ⌊x * 10 ^ n + 1 / 2⌋ = z from Int.floor_eq_iff.mpr ⟨h1, h2⟩, h3]

lemma roundq_nonneg {x : ℚ} (n : ℕ) (h : 0 ≤ x) : 0 ≤ roundq x n := by
  rw [roundq]
  apply div_nonneg _ (by positivity)
  have hz : (0 : ℤ) ≤ round (x * 10 ^ n) := by
    rw [round_eq]
    apply Int.le_floor.mpr
    have hx : (0 : ℚ) ≤ x * 10 ^ n := by positivity
    push_cast
    linarith
  exact_mod_cast hz

lemma roundq_le_two {x : ℚ} (h : x ≤ 2) : roundq x 4 ≤ 2 := by
  rw [roundq, round_eq, div_le_iff₀ (by norm_num : (0 : ℚ) < 10 ^ 4)]
  have hb : x * 10 ^ 4 + 1 / 2 ≤ 20000 + 1 / 2 := by nlinarith
  have h2 : ⌊x * 10 ^ 4 + 1 / 2⌋ ≤ 20000 := by
    have hf := Int.floor_mono hb
    rwa [show ⌊(20000 + 1 / 2 : ℚ)⌋ = 20000 from by rw [Int.floor_eq_iff]; norm_num] at hf
  calc ((⌊x * 10 ^ 4 + 1 / 2⌋ : ℤ) : ℚ) ≤ ((20000 : ℤ) : ℚ) := by exact_mod_cast h2
    _ ≤ 2 * 10 ^ 4 := by norm_num

lemma build_portfolio_some (tm cm : Market) (tpos cpos : String) (cp : ℚ) (rel : String)
    (tp cpr : ℚ)
    (htp : (if tpos == "YES" then tm.yes_price else tm.no_price) = tp)
    (hcpr : (if cpos == "YES" then cm.yes_price else cm.no_price) = cpr)
    (h1 : ¬(tp + cpr ≤ 0 ∨ 2 < tp + cpr))
    (h2 : ¬(95 / 100 ≤ cp ∧ (if tp < 1 then cpr / (1 - tp) else 1) < 1 / 2))
    (h3 : ¬(roundq (tp + (1 - tp) * cp) 4 < MIN_COVERAGE)) :
    build_portfolio tm cm tpos cpos cp rel = some
      { target_id := tm.id
        target_question := tm.question
        target_slug := tm.slug
        target_position := tpos
        target_price := roundq tp 4
        cover_id := cm.id
        cover_question := cm.question
        cover_slug := cm.slug
        cover_position := cpos
        cover_price := roundq cpr 4
        cover_probability := cp
        relationship := rel
        total_cost := roundq (tp + cpr) 4
        profit := roundq (1 - (tp + cpr)) 4
        profit_pct := if 0 < tp + cpr then roundq ((1 - (tp + cpr)) / (tp + cpr) * 100) 2 else 0
        coverage := roundq (tp + (1 - tp) * cp) 4
        loss_probability := roundq ((1 - tp) * (1 - cp)) 4
        expected_profit := roundq (tp + (1 - tp) * cp - (tp + cpr)) 4
        tier := (classify_tier (roundq (tp + (1 - tp) * cp) 4) (tp + cpr)).1
        tier_label := (classify_tier (roundq (tp + (1 - tp) * cp) 4) (tp + cpr)).2 } := by
  simp only [build_portfolio, calculate_coverage_metrics, htp, hcpr]
  rw [if_neg h1, if_neg h2, if_neg h3]

/-- C3 (amended): the coverage value compared against the 0.85 minimum in
build_portfolio and fed to the tier classification is the coverage rounded
to 4 decimal places by calculate_coverage_metrics, not the full-precision
value: every accepted portfolio stores that rounded value, the rounded value
passes the minimum, and the stored tier is classify_tier of the rounded
value and the unrounded total cost. -/
theorem coverage_rounded_in_filter_and_tier (tm cm : Market) (tpos cpos : String)
    (cp : ℚ) (rel : String) (tp cpr : ℚ)
    (htp : (if tpos == "YES" then tm.yes_price else tm.no_price) = tp)
    (hcpr : (if cpos == "YES" then cm.yes_price else cm.no_price) = cpr)
    (h : build_portfolio tm cm tpos cpos cp rel ≠ none) :
    (build_portfolio tm cm tpos cpos cp rel).map Portfolio.coverage
      = some (roundq (coverageRaw tp cp) 4) ∧
    MIN_COVERAGE ≤ roundq (coverageRaw tp cp) 4 ∧
    (build_portfolio tm cm tpos cpos cp rel).map (fun p => (p.tier, p.tier_label))
      = some (classify_tier (roundq (coverageRaw tp cp) 4) (tp + cpr)) := by
  by_cases hc1 : tp + cpr ≤ 0 ∨ 2 < tp + cpr
  · exfalso
    apply h
    simp only [build_portfolio, htp, hcpr]
    rw [if_pos hc1]
  · by_cases hc2 : 95 / 100 ≤ cp ∧ (if tp < 1 then cpr / (1 - tp) else 1) < 1 / 2
    · exfalso
      apply h
      simp only [build_portfolio, htp, hcpr]
      rw [if_neg hc1, if_pos hc2]
    · by_cases hc3 : roundq (tp + (1 - tp) * cp) 4 < MIN_COVERAGE
      · exfalso
        apply h
        simp only [build_portfolio, calculate_coverage_metrics, htp, hcpr]
        rw [if_neg hc1, if_neg hc2, if_pos hc3]
      · rw [build_portfolio_some tm cm tpos cpos cp rel tp cpr htp hcpr hc1 hc2 hc3]
        refine ⟨rfl, ?_, rfl⟩
        simp only [coverageRaw]
        exact not_lt.mp hc3

/-- C3 counterexample: at target price 0.5, cover price 0.1 and cover
probability 0.69992 the raw coverage 0.84996 is below the 0.85 minimum, yet
build_portfolio accepts the portfolio because the comparison uses the value
rounded to 4 decimals (0.85), and classifies it tier 3 although the
full-precision coverage would give tier 4: the comparisons do not use the
full-precision value. -/
theorem c3_counterexample :
    coverageRaw (1 / 2) (69992 / 100000) < MIN_COVERAGE ∧
    (build_portfolio ⟨"t", "tq", "ts", "", "", 1/2, 1/2⟩ ⟨"c", "cq", "cs", "", "", 1/10, 9/10⟩
        "YES" "YES" (69992 / 100000) "r").map Portfolio.coverage = some (17 / 20) ∧
    ¬ ((17 / 20 : ℚ) < MIN_COVERAGE) ∧
    (build_portfolio ⟨"t", "tq", "ts", "", "", 1/2, 1/2⟩ ⟨"c", "cq", "cs", "", "", 1/10, 9/10⟩
        "YES" "YES" (69992 / 100000) "r").map (fun p => (p.tier, p.tier_label))
      = some (3, "MODERATE") ∧
    classify_tier (coverageRaw (1 / 2) (69992 / 100000)) (1 / 2 + 1 / 10) = (4, "LOW") := by
  have hcov : roundq ((1 : ℚ) / 2 + (1 - 1 / 2) * (69992 / 100000)) 4 = 17 / 20 :=
    roundq_eval 8500 (by norm_num) (by norm_num) (by norm_num)
  have hb := build_portfolio_some ⟨"t", "tq", "ts", "", "", 1/2, 1/2⟩
    ⟨"c", "cq", "cs", "", "", 1/10, 9/10⟩ "YES" "YES" (69992 / 100000) "r" (1/2) (1/10)
    (by simp) (by simp) (by norm_num) (by norm_num) (by rw [hcov]; norm_num [MIN_COVERAGE])
  refine ⟨by norm_num [coverageRaw, MIN_COVERAGE], ?_, by norm_num [MIN_COVERAGE], ?_, ?_⟩
  · rw [hb]
    simp only [Option.map_some']
    rw [hcov]
  · rw [hb]
    simp only [Option.map_some']
    rw [hcov]
    norm_num [classify_tier, tierLoop, TIER_THRESHOLDS]
  · norm_num [classify_tier, tierLoop, TIER_THRESHOLDS, coverageRaw]

theorem c3_witness :
    build_portfolio ⟨"t", "tq", "ts", "", "", 1/2, 1/2⟩ ⟨"c", "cq", "cs", "", "", 1/10, 9/10⟩
        "YES" "YES" (9 / 10) "r" ≠ none ∧
    ((build_portfolio ⟨"t", "tq", "ts", "", "", 1/2, 1/2⟩ ⟨"c", "cq", "cs", "", "", 1/10, 9/10⟩
        "YES" "YES" (9 / 10) "r").map Portfolio.coverage
      = some (roundq (coverageRaw (1 / 2) (9 / 10)) 4) ∧
    MIN_COVERAGE ≤ roundq (coverageRaw (1 / 2) (9 / 10)) 4 ∧
    (build_portfolio ⟨"t", "tq", "ts", "", "", 1/2, 1/2⟩ ⟨"c", "cq", "cs", "", "", 1/10, 9/10⟩
        "YES" "YES" (9 / 10) "r").map (fun p => (p.tier, p.tier_label))
      = some (classify_tier (roundq (coverageRaw (1 / 2) (9 / 10)) 4) (1 / 2 + 1 / 10))) := by
  have hcov : roundq ((1 : ℚ) / 2 + (1 - 1 / 2) * (9 / 10)) 4 = 19 / 20 :=
    roundq_eval 9500 (by norm_num) (by norm_num) (by norm_num)
  have hb := build_portfolio_some ⟨"t", "tq", "ts", "", "", 1/2, 1/2⟩
    ⟨"c", "cq", "cs", "", "", 1/10, 9/10⟩ "YES" "YES" (9 / 10) "r" (1/2) (1/10)
    (by simp) (by simp) (by norm_num) (by norm_num) (by rw [hcov]; norm_num [MIN_COVERAGE])
  have hne : build_portfolio ⟨"t", "tq", "ts", "", "", 1/2, 1/2⟩
      ⟨"c", "cq", "cs", "", "", 1/10, 9/10⟩ "YES" "YES" (9 / 10) "r" ≠ none := by
    rw [hb]; simp
  exact ⟨hne, coverage_rounded_in_filter_and_tier _ _ _ _ _ _ (1/2) (1/10)
    (by simp) (by simp) hne⟩



/-- C4 (amended): every record returned by build_portfolio comes from an
unrounded total cost in (0, 2]; its total_cost field is that cost rounded to
4 decimals and lies in [0, 2] (it can be 0); its coverage field is at least
0.85; and its tier fields equal classify_tier of the coverage field and the
unrounded total cost (not the rounded total_cost field). -/
theorem portfolio_invariants (tm cm : Market) (tpos cpos : String)
    (cp : ℚ) (rel : String) (tp cpr : ℚ)
    (htp : (if tpos == "YES" then tm.yes_price else tm.no_price) = tp)
    (hcpr : (if cpos == "YES" then cm.yes_price else cm.no_price) = cpr)
    (h : build_portfolio tm cm tpos cpos cp rel ≠ none) :
    0 < tp + cpr ∧ tp + cpr ≤ 2 ∧
    (build_portfolio tm cm tpos cpos cp rel).map Portfolio.total_cost
      = some (roundq (tp + cpr) 4) ∧
    0 ≤ roundq (tp + cpr) 4 ∧ roundq (tp + cpr) 4 ≤ 2 ∧
    MIN_COVERAGE ≤ ((build_portfolio tm cm tpos cpos cp rel).map Portfolio.coverage).getD 0 ∧
    (build_portfolio tm cm tpos cpos cp rel).map (fun p => (p.tier, p.tier_label))
      = some (classify_tier
          (((build_portfolio tm cm tpos cpos cp rel).map Portfolio.coverage).getD 0)
          (tp + cpr)) := by
  by_cases hc1 : tp + cpr ≤ 0 ∨ 2 < tp + cpr
  · exfalso
    apply h
    simp only [build_portfolio, htp, hcpr]
    rw [if_pos hc1]
  · by_cases hc2 : 95 / 100 ≤ cp ∧ (if tp < 1 then cpr / (1 - tp) else 1) < 1 / 2
    · exfalso
      apply h
      simp only [build_portfolio, htp, hcpr]
      rw [if_neg hc1, if_pos hc2]
    · by_cases hc3 : roundq (tp + (1 - tp) * cp) 4 < MIN_COVERAGE
      · exfalso
        apply h
        simp only [build_portfolio, calculate_coverage_metrics, htp, hcpr]
        rw [if_neg hc1, if_neg hc2, if_pos hc3]
      · push_neg at hc1
        rw [build_portfolio_some tm cm tpos cpos cp rel tp cpr htp hcpr
          (by push_neg; exact hc1) hc2 hc3]
        exact ⟨hc1.1, hc1.2, rfl, roundq_nonneg 4 (le_of_lt hc1.1), roundq_le_two hc1.2,
          not_lt.mp hc3, rfl⟩



/-- C4 counterexample: with both prices 0.00002 the accepted record has
total_cost field 0 (violating 0 < total_cost on the field); and with prices
0.5 and 0.49996 the record carries tier (1, HIGH) while classify_tier applied
to the record fields coverage and total_cost (the latter rounded up to 1.0)
gives (4, LOW). -/
theorem c4_counterexample :
    (build_portfolio ⟨"t", "tq", "ts", "", "", 1/50000, 1/2⟩
        ⟨"c", "cq", "cs", "", "", 1/50000, 1/2⟩ "YES" "YES" (9/10) "r").map
        Portfolio.total_cost = some 0 ∧
    (build_portfolio ⟨"t", "tq", "ts", "", "", 1/2, 1/2⟩
        ⟨"c", "cq", "cs", "", "", 12499/25000, 1/2⟩ "YES" "YES" (95/100) "r").map
        (fun p => (p.tier, p.tier_label)) = some (1, "HIGH") ∧
    (build_portfolio ⟨"t", "tq", "ts", "", "", 1/2, 1/2⟩
        ⟨"c", "cq", "cs", "", "", 12499/25000, 1/2⟩ "YES" "YES" (95/100) "r").map
        (fun p => classify_tier p.coverage p.total_cost) = some (4, "LOW") := by
  have hcov1 : roundq ((1 : ℚ) / 50000 + (1 - 1 / 50000) * (9 / 10)) 4 = 9 / 10 :=
    roundq_eval 9000 (by norm_num) (by norm_num) (by norm_num)
  have htc1 : roundq ((1 : ℚ) / 50000 + 1 / 50000) 4 = 0 :=
    roundq_eval 0 (by norm_num) (by norm_num) (by norm_num)
  have hb1 := build_portfolio_some ⟨"t", "tq", "ts", "", "", 1/50000, 1/2⟩
    ⟨"c", "cq", "cs", "", "", 1/50000, 1/2⟩ "YES" "YES" (9/10) "r" (1/50000) (1/50000)
    (by simp) (by simp) (by norm_num) (by norm_num)
    (by rw [hcov1]; norm_num [MIN_COVERAGE])
  have hcov2 : roundq ((1 : ℚ) / 2 + (1 - 1 / 2) * (95 / 100)) 4 = 39 / 40 :=
    roundq_eval 9750 (by norm_num) (by norm_num) (by norm_num)
  have htc2 : roundq ((1 : ℚ) / 2 + 12499 / 25000) 4 = 1 :=
    roundq_eval 10000 (by norm_num) (by norm_num) (by norm_num)
  have hb2 := build_portfolio_some ⟨"t", "tq", "ts", "", "", 1/2, 1/2⟩
    ⟨"c", "cq", "cs", "", "", 12499/25000, 1/2⟩ "YES" "YES" (95/100) "r" (1/2) (12499/25000)
    (by simp) (by simp) (by norm_num) (by norm_num)
    (by rw [hcov2]; norm_num [MIN_COVERAGE])
  refine ⟨?_, ?_, ?_⟩
  · rw [hb1]
    simp only [Option.map_some']
    rw [htc1]
  · rw [hb2]
    simp only [Option.map_some']
    rw [hcov2]
    norm_num [classify_tier, tierLoop, TIER_THRESHOLDS]
  · rw [hb2]
    simp only [Option.map_some']
    rw [hcov2, htc2]
    norm_num [classify_tier]

theorem c4_witness :
    build_portfolio ⟨"t", "tq", "ts", "", "", 1/2, 1/2⟩ ⟨"c", "cq", "cs", "", "", 1/5, 4/5⟩
        "YES" "YES" (9/10) "r" ≠ none ∧
    (0 < (1 : ℚ) / 2 + 1 / 5 ∧ (1 : ℚ) / 2 + 1 / 5 ≤ 2 ∧
    (build_portfolio ⟨"t", "tq", "ts", "", "", 1/2, 1/2⟩ ⟨"c", "cq", "cs", "", "", 1/5, 4/5⟩
        "YES" "YES" (9/10) "r").map Portfolio.total_cost = some (roundq (1/2 + 1/5) 4) ∧
    0 ≤ roundq ((1 : ℚ)/2 + 1/5) 4 ∧ roundq ((1 : ℚ)/2 + 1/5) 4 ≤ 2 ∧
    MIN_COVERAGE ≤ ((build_portfolio ⟨"t", "tq", "ts", "", "", 1/2, 1/2⟩
        ⟨"c", "cq", "cs", "", "", 1/5, 4/5⟩ "YES" "YES" (9/10) "r").map
        Portfolio.coverage).getD 0 ∧
    (build_portfolio ⟨"t", "tq", "ts", "", "", 1/2, 1/2⟩ ⟨"c", "cq", "cs", "", "", 1/5, 4/5⟩
        "YES" "YES" (9/10) "r").map (fun p => (p.tier, p.tier_label))
      = some (classify_tier (((build_portfolio ⟨"t", "tq", "ts", "", "", 1/2, 1/2⟩
          ⟨"c", "cq", "cs", "", "", 1/5, 4/5⟩ "YES" "YES" (9/10) "r").map
          Portfolio.coverage).getD 0) (1/2 + 1/5))) := by
  have hcov : roundq ((1 : ℚ) / 2 + (1 - 1 / 2) * (9 / 10)) 4 = 19 / 20 :=
    roundq_eval 9500 (by norm_num) (by norm_num) (by norm_num)
  have hb := build_portfolio_some ⟨"t", "tq", "ts", "", "", 1/2, 1/2⟩
    ⟨"c", "cq", "cs", "", "", 1/5, 4/5⟩ "YES" "YES" (9/10) "r" (1/2) (1/5)
    (by simp) (by simp) (by norm_num) (by norm_num)
    (by rw [hcov]; norm_num [MIN_COVERAGE])
  have hne : build_portfolio ⟨"t", "tq", "ts", "", "", 1/2, 1/2⟩
      ⟨"c", "cq", "cs", "", "", 1/5, 4/5⟩ "YES" "YES" (9/10) "r" ≠ none := by
    rw [hb]; simp
  exact ⟨hne, portfolio_invariants _ _ _ _ _ _ (1/2) (1/5) (by simp) (by simp) hne⟩



lemma sum_map_mul_price (r : ℚ) (legs : List ArbitrageLeg) :
    (legs.map fun leg => r * leg.price).sum = r * (legs.map ArbitrageLeg.price).sum := by
  induction legs with
  | nil => simp
  | cons a l ih => simp [ih, mul_add]

lemma foldl_add_yes_price (ms : List Market) (init : ℚ) :
    ms.foldl (fun acc m => acc + m.yes_price) init = init + (ms.map Market.yes_price).sum := by
  induction ms generalizing init with
  | nil => simp
  | cons a l ih =>
    simp only [List.foldl_cons, List.map_cons, List.sum_cons, ih]
    ring

/-- C5 (amended): for a portfolio whose total_cost is the sum of its leg
prices and is nonzero, get_execution_steps produces one step per leg in
order with amount capital * (price / total_cost), the amounts sum exactly to
the capital, and both calculate_split_arbitrage and
calculate_negrisk_arbitrage produce portfolios whose total_cost is the sum
of their leg prices. -/
theorem execution_steps_allocation (P : ArbitragePortfolio) (capital : ℚ)
    (hsum : P.total_cost = (P.legs.map ArbitrageLeg.price).sum)
    (hnz : P.total_cost ≠ 0) :
    P.get_execution_steps capital = (P.legs.map fun leg =>
      { market_id := leg.market_id
        position := leg.side
        amount := capital * (leg.price / P.total_cost)
        description := "Enter " ++ leg.side ++ " on " ++ leg.market_id ++ " via Split" }) ∧
    ((P.get_execution_steps capital).map ExecutionStep.amount).sum = capital ∧
    (∀ (agg : Market) (comps : List Market),
      (calculate_split_arbitrage agg comps).total_cost
        = ((calculate_split_arbitrage agg comps).legs.map ArbitrageLeg.price).sum) ∧
    (∀ ms : List Market,
      (calculate_negrisk_arbitrage ms).total_cost
        = ((calculate_negrisk_arbitrage ms).legs.map ArbitrageLeg.price).sum) := by
  refine ⟨rfl, ?_, ?_, ?_⟩
  · rw [ArbitragePortfolio.get_execution_steps, List.map_map]
    have hcomp : (ExecutionStep.amount ∘ fun leg : ArbitrageLeg =>
        ({ market_id := leg.market_id
           position := leg.side
           amount := capital * (leg.price / P.total_cost)
           description := "Enter " ++ leg.side ++ " on " ++ leg.market_id ++ " via Split" } :
          ExecutionStep)) = fun leg => (capital / P.total_cost) * leg.price := by
      funext leg
      simp [Function.comp]
      ring
    rw [hcomp, sum_map_mul_price, ← hsum, div_mul_cancel₀ capital hnz]
  · intro agg comps
    simp only [calculate_split_arbitrage, List.map_cons, List.map_map, List.sum_cons,
      foldl_add_yes_price]
    rw [show (ArbitrageLeg.price ∘ fun m : Market =>
      ({ token_id := m.yes_token_id, side := "YES", price := m.yes_price, market_id := m.id,
         question := m.question } : ArbitrageLeg)) = Market.yes_price from funext fun m => rfl]
  · intro ms
    simp only [calculate_negrisk_arbitrage, List.map_map, foldl_add_yes_price, zero_add]
    rw [show (ArbitrageLeg.price ∘ fun m : Market =>
      ({ token_id := m.yes_token_id, side := "YES", price := m.yes_price, market_id := m.id,
         question := m.question } : ArbitrageLeg)) = Market.yes_price from funext fun m => rfl]

/-- C5 counterexample: the negrisk calculator on one zero-priced market
yields a portfolio with a non-empty leg set whose total_cost (zero) is the
sum of its leg prices, and the execution step amounts sum to 0, not to the
requested capital 1 (in Python the allocation raises ZeroDivisionError
there; either way no steps summing to the capital are produced). -/
theorem c5_counterexample :
    (calculate_negrisk_arbitrage [⟨"m1", "q1", "s1", "yt", "nt", 0, 1⟩]).legs ≠ [] ∧
    (calculate_negrisk_arbitrage [⟨"m1", "q1", "s1", "yt", "nt", 0, 1⟩]).total_cost
      = ((calculate_negrisk_arbitrage [⟨"m1", "q1", "s1", "yt", "nt", 0, 1⟩]).legs.map
          ArbitrageLeg.price).sum ∧
    (((calculate_negrisk_arbitrage [⟨"m1", "q1", "s1", "yt", "nt", 0, 1⟩]).get_execution_steps
        1).map ExecutionStep.amount).sum = 0 ∧
    (0 : ℚ) ≠ 1 := by
  refine ⟨?_, ?_, ?_, by norm_num⟩
  · simp [calculate_negrisk_arbitrage]
  · simp [calculate_negrisk_arbitrage]
  · simp [calculate_negrisk_arbitrage, ArbitragePortfolio.get_execution_steps]

theorem c5_witness :
    (calculate_negrisk_arbitrage [⟨"m1", "q1", "s1", "y1", "n1", 1/4, 3/4⟩,
        ⟨"m2", "q2", "s2", "y2", "n2", 1/4, 3/4⟩]).total_cost
      = ((calculate_negrisk_arbitrage [⟨"m1", "q1", "s1", "y1", "n1", 1/4, 3/4⟩,
          ⟨"m2", "q2", "s2", "y2", "n2", 1/4, 3/4⟩]).legs.map ArbitrageLeg.price).sum ∧
    (calculate_negrisk_arbitrage [⟨"m1", "q1", "s1", "y1", "n1", 1/4, 3/4⟩,
        ⟨"m2", "q2", "s2", "y2", "n2", 1/4, 3/4⟩]).total_cost ≠ 0 ∧
    (((calculate_negrisk_arbitrage [⟨"m1", "q1", "s1", "y1", "n1", 1/4, 3/4⟩,
        ⟨"m2", "q2", "s2", "y2", "n2", 1/4, 3/4⟩]).get_execution_steps 3).map
        ExecutionStep.amount).sum = 3 := by
  have h1 : (calculate_negrisk_arbitrage [⟨"m1", "q1", "s1", "y1", "n1", 1/4, 3/4⟩,
      ⟨"m2", "q2", "s2", "y2", "n2", 1/4, 3/4⟩]).total_cost
      = ((calculate_negrisk_arbitrage [⟨"m1", "q1", "s1", "y1", "n1", 1/4, 3/4⟩,
          ⟨"m2", "q2", "s2", "y2", "n2", 1/4, 3/4⟩]).legs.map ArbitrageLeg.price).sum := by
    simp [calculate_negrisk_arbitrage]
  have h2 : (calculate_negrisk_arbitrage [⟨"m1", "q1", "s1", "y1", "n1", 1/4, 3/4⟩,
      ⟨"m2", "q2", "s2", "y2", "n2", 1/4, 3/4⟩]).total_cost ≠ 0 := by
    simp [calculate_negrisk_arbitrage]
  exact ⟨h1, h2, (execution_steps_allocation _ 3 h1 h2).2.1⟩



lemma fillablePrefixSum_nonneg (isSell : Bool) (limit : ℚ) (orders : List (ℚ × ℚ))
    (hsz : ∀ e ∈ orders, 0 ≤ e.2) : 0 ≤ fillablePrefixSum isSell limit orders := by
  induction orders with
  | nil => simp [fillablePrefixSum]
  | cons a l ih =>
    by_cases hp : priceOk isSell limit a
    · rw [fillablePrefixSum, List.takeWhile_cons_of_pos hp]
      simp only [List.map_cons, List.sum_cons]
      have h1 : 0 ≤ a.2 := hsz a (List.mem_cons_self a l)
      have h2 := ih fun e he => hsz e (List.mem_cons_of_mem a he)
      rw [fillablePrefixSum] at h2
      linarith
    · rw [fillablePrefixSum, List.takeWhile_cons_of_neg hp]
      simp

lemma fillablePrefixSum_cons_pos {isSell : Bool} {limit : ℚ} {a : ℚ × ℚ}
    {l : List (ℚ × ℚ)} (h : priceOk isSell limit a) :
    fillablePrefixSum isSell limit (a :: l) = a.2 + fillablePrefixSum isSell limit l := by
  rw [fillablePrefixSum, fillablePrefixSum, List.takeWhile_cons_of_pos h, List.map_cons,
    List.sum_cons]

lemma fillablePrefixSum_cons_neg {isSell : Bool} {limit : ℚ} {a : ℚ × ℚ}
    {l : List (ℚ × ℚ)} (h : ¬ priceOk isSell limit a) :
    fillablePrefixSum isSell limit (a :: l) = 0 := by
  rw [fillablePrefixSum, List.takeWhile_cons_of_neg h]
  simp

lemma liqLoop_eq_decide (isSell : Bool) (limit amount : ℚ) :
    ∀ (orders : List (ℚ × ℚ)) (total : ℚ),
      (∀ e ∈ orders, 0 ≤ e.2) → total < amount →
      liqLoop isSell limit amount orders total
        = decide (amount ≤ total + fillablePrefixSum isSell limit orders)
  | [], total, _, hlt => by
    simp only [liqLoop, fillablePrefixSum, List.takeWhile_nil, List.map_nil, List.sum_nil,
      add_zero]
    exact (decide_eq_false (not_le.mpr hlt)).symm
  | (p, s) :: rest, total, hsz, hlt => by
    simp only [liqLoop]
    by_cases hv : priceOk isSell limit (p, s)
    · rw [if_pos hv, fillablePrefixSum_cons_pos hv]
      by_cases hfill : amount ≤ total + s
      · rw [if_pos hfill]
        have hrest : 0 ≤ fillablePrefixSum isSell limit rest :=
          fillablePrefixSum_nonneg isSell limit rest
            fun e he => hsz e (List.mem_cons_of_mem _ he)
        have hle : amount ≤ total + ((p, s).2 + fillablePrefixSum isSell limit rest) := by
          dsimp only
          linarith
        exact (decide_eq_true hle).symm
      · rw [if_neg hfill]
        rw [liqLoop_eq_decide isSell limit amount rest (total + s)
          (fun e he => hsz e (List.mem_cons_of_mem _ he)) (lt_of_not_le hfill)]
        congr 1
        rw [eq_iff_iff]
        dsimp only
        constructor <;> intro h <;> linarith
    · rw [if_neg hv, fillablePrefixSum_cons_neg hv, add_zero]
      exact (decide_eq_false (not_le.mpr hlt)).symm

/-- C6: check_liquidity walks the relevant book side (bids for a sell,
asks for a buy) in order and, for a positive requested amount and
nonnegative sizes, returns true exactly when the accumulated size of the
prefix satisfying the price condition (sell: price at least the limit; buy:
price at most the limit) reaches the amount; entries after the first failing
entry are never counted, and an empty book yields false. -/
theorem check_liquidity_scan (bids asks : List (ℚ × ℚ)) (side : String)
    (amount min_price : ℚ) (hamt : 0 < amount)
    (hsz : ∀ e ∈ (if strLower side == "sell" then bids else asks), 0 ≤ e.2) :
    check_liquidity bids asks side amount min_price
      = decide (amount ≤ fillablePrefixSum (strLower side == "sell") min_price
          (if strLower side == "sell" then bids else asks)) := by
  rw [check_liquidity, liqLoop_eq_decide _ _ _ _ 0 hsz hamt, zero_add]

theorem c6_witness :
    check_liquidity [] [(1/2, 10), (11/20, 20)] "buy" 15 (13/25) = false := by
  have hs : (strLower "buy" == "sell") = false := by decide
  have hsz : ∀ e ∈ (if strLower "buy" == "sell" then ([] : List (ℚ × ℚ))
      else [(1/2, 10), (11/20, 20)]), 0 ≤ e.2 := by
    rw [hs]
    intro e he
    simp only [Bool.false_eq_true, if_false, List.mem_cons, List.not_mem_nil, or_false] at he
    rcases he with rfl | rfl <;> norm_num
  rw [check_liquidity_scan [] [(1/2, 10), (11/20, 20)] "buy" 15 (13/25) (by norm_num) hsz, hs]
  have h1 : priceOk false (13/25) ((1 : ℚ)/2, (10 : ℚ)) = true := by
    simp only [priceOk, Bool.false_eq_true, if_false, decide_eq_true_eq]
    norm_num
  have h2 : ¬ (priceOk false (13/25) ((11 : ℚ)/20, (20 : ℚ)) = true) := by
    simp only [priceOk, Bool.false_eq_true, if_false, decide_eq_true_eq]
    norm_num
  simp only [Bool.false_eq_true, if_false]
  rw [fillablePrefixSum_cons_pos h1, fillablePrefixSum_cons_neg h2]
  norm_num

lemma sellFokLoop_posts_le (proxy : Bool) (outcomes : ℕ → Except String String) :
    ∀ (fuel attempt : ℕ) (le : Option String),
      (sellFokLoop proxy outcomes fuel attempt le).posts ≤ fuel
  | 0, _, _ => Nat.le_refl 0
  | fuel + 1, attempt, le => by
    simp only [sellFokLoop]
    cases outcomes attempt with
    | ok oid => dsimp only; omega
    | error e =>
      dsimp only
      by_cases hb : (is_cloudflare_block e && proxy) = true
      · rw [if_pos hb]
        have ih := sellFokLoop_posts_le proxy outcomes fuel (attempt + 1) (some e)
        dsimp only
        omega
      · rw [if_neg hb]
        dsimp only
        omega

lemma sellFokLoop_noproxy_posts (outcomes : ℕ → Except String String) :
    ∀ (fuel attempt : ℕ) (le : Option String),
      (sellFokLoop false outcomes fuel attempt le).posts ≤ 1
  | 0, _, _ => Nat.zero_le 1
  | fuel + 1, attempt, le => by
    simp only [sellFokLoop]
    cases outcomes attempt with
    | ok oid => dsimp only; omega
    | error e => simp

lemma sellFokLoop_counts_pos (outcomes : ℕ → Except String String) :
    ∀ (fuel attempt : ℕ) (le : Option String), 1 ≤ attempt →
      (sellFokLoop true outcomes fuel attempt le).refreshes
        = (sellFokLoop true outcomes fuel attempt le).posts ∧
      (sellFokLoop true outcomes fuel attempt le).sleeps
        = (sellFokLoop true outcomes fuel attempt le).posts
  | 0, _, _, _ => ⟨rfl, rfl⟩
  | fuel + 1, attempt, le, hatt => by
    have hpos : 0 < attempt := hatt
    simp only [sellFokLoop]
    cases outcomes attempt with
    | ok oid => simp [hpos]
    | error e =>
      dsimp only
      by_cases hb : (is_cloudflare_block e && true) = true
      · rw [if_pos hb]
        have ih := sellFokLoop_counts_pos outcomes fuel (attempt + 1) (some e)
          (Nat.le_succ_of_le hatt)
        simp only [hpos, true_and, and_true, if_true]
        omega
      · rw [if_neg hb]
        simp [hpos]

/-- C7: in the Fill-or-Kill sell, the attempt bound defaults to 5 and bounds
the number of order posts; with no proxy configured at most one post is ever
made (blocks are not retried); with a proxy, every retry after the first
attempt is preceded by exactly one HTTP client refresh and one pause; an
error that is not a proxied network block ends the loop immediately after
its post with that error recorded; and when the loop ends unfilled the
returned message is the distinct Cloudflare block message exactly for a
block error, while a generic error is passed through verbatim. -/
theorem fok_retry_policy (proxy : Bool) (outcomes : ℕ → Except String String)
    (price : ℚ) (maxRetries : ℕ) :
    CLOB_MAX_RETRIES = 5 ∧
    (∀ (fuel attempt : ℕ) (le : Option String),
      (sellFokLoop proxy outcomes fuel attempt le).posts ≤ fuel) ∧
    (∀ (fuel attempt : ℕ) (le : Option String),
      (sellFokLoop false outcomes fuel attempt le).posts ≤ 1) ∧
    (∀ (fuel : ℕ) (le : Option String),
      (sellFokLoop true outcomes fuel 0 le).refreshes
          + min (sellFokLoop true outcomes fuel 0 le).posts 1
        = (sellFokLoop true outcomes fuel 0 le).posts ∧
      (sellFokLoop true outcomes fuel 0 le).sleeps
        = (sellFokLoop true outcomes fuel 0 le).refreshes) ∧
    (∀ (fuel attempt : ℕ) (le : Option String) (e : String),
      outcomes attempt = .error e → (is_cloudflare_block e && proxy) = false →
      (sellFokLoop proxy outcomes (fuel + 1) attempt le).posts = 1 ∧
      (sellFokLoop proxy outcomes (fuel + 1) attempt le).filled = false ∧
      (sellFokLoop proxy outcomes (fuel + 1) attempt le).lastError = some e) ∧
    (∀ e : String,
      (sell_fok maxRetries proxy outcomes price).1.filled = false →
      (sell_fok maxRetries proxy outcomes price).1.lastError = some e →
      ((is_cloudflare_block e = true →
        (sell_fok maxRetries proxy outcomes price).2
          = (none, false, some cloudflareBlockMsg)) ∧
       (is_cloudflare_block e = false →
        strContains (strLower e) "no match" = false →
        strContains (strLower e) "insufficient" = false →
        (sell_fok maxRetries proxy outcomes price).2 = (none, false, some e)))) := by
  refine ⟨rfl, sellFokLoop_posts_le proxy outcomes, sellFokLoop_noproxy_posts outcomes,
    ?_, ?_, ?_⟩
  · intro fuel le
    cases fuel with
    | zero => exact ⟨rfl, rfl⟩
    | succ fuel =>
      simp only [sellFokLoop]
      cases outcomes 0 with
      | ok oid => simp
      | error e =>
        dsimp only
        by_cases hb : (is_cloudflare_block e && true) = true
        · rw [if_pos hb]
          have ih := sellFokLoop_counts_pos outcomes fuel (0 + 1) (some e) (by omega)
          simp only [Nat.lt_irrefl, false_and, if_false, Nat.add_zero]
          omega
        · rw [if_neg hb]
          simp
  · intro fuel attempt le e houtc hb
    simp only [sellFokLoop, houtc]
    rw [if_neg (by simp [hb])]
    exact ⟨rfl, rfl, rfl⟩
  · intro e hfill hlast
    simp only [sell_fok] at hfill hlast ⊢
    rw [if_neg (by simp [hfill])]
    rw [hlast]
    constructor
    · intro hblk
      simp [sellFokMsg, hblk]
    · intro hblk hnm hins
      simp [sellFokMsg, hblk, hnm, hins]

theorem c7_witness :
    (sell_fok 5 true (fun _ => Except.error "403 cloudflare") (1/2)).1.filled = false ∧
    (sell_fok 5 true (fun _ => Except.error "403 cloudflare") (1/2)).1.lastError
      = some "403 cloudflare" ∧
    (sell_fok 5 true (fun _ => Except.error "403 cloudflare") (1/2)).2
      = (none, false, some cloudflareBlockMsg) := by
  have h := (fok_retry_policy true (fun _ => Except.error "403 cloudflare")
    (1/2) 5).2.2.2.2.2 "403 cloudflare" (by decide) (by decide)
  exact ⟨by decide, by decide, h.1 (by decide)⟩

/-- C8 (amended): when the FOK attempt reports unfilled, sell_robust re-checks
liquidity for the full amount at the 0.05 floor; with no liquidity it stops
with the insufficiency message and places no order; with liquidity it passes
a GTC order of size amount at price round(max(0.8 * target, 0.02), 2) to
create_order, and a successful post is reported with the distinct message
Placed Aggressive GTC Limit; a filled FOK short-circuits everything. -/
theorem sell_robust_fallback (fok : Option String × Bool × Option String)
    (bids asks : List (ℚ × ℚ)) (gtc : Except String String) (amount price : ℚ)
    (hfail : fok.2.1 = false) :
    (check_liquidity bids asks "sell" amount (5 / 100) = false →
      sell_robust fok bids asks gtc amount price
        = ((none, false, some (insufficientLiquidityMsg amount fok.2.2)), none)) ∧
    (check_liquidity bids asks "sell" amount (5 / 100) = true →
      ((sell_robust fok bids asks gtc amount price).2
          = some { price := roundq (max (price * (8 / 10)) (2 / 100)) 2,
                   size := amount, side := "SELL" } ∧
       (∀ oid, gtc = .ok oid →
         (sell_robust fok bids asks gtc amount price).1
           = (some oid, true, some "Placed Aggressive GTC Limit")))) ∧
    (∀ (fid : Option String) (err2 : Option String),
      sell_robust (fid, true, err2) bids asks gtc amount price = ((fid, true, none), none)) := by
  refine ⟨?_, ?_, fun fid err2 => rfl⟩
  · intro hliq
    simp only [sell_robust]
    rw [if_neg (by simp [hfail]), hliq]
    rfl
  · intro hliq
    simp only [sell_robust]
    rw [if_neg (by simp [hfail]), hliq]
    cases gtc with
    | ok oid => exact ⟨rfl, fun oid2 hoid2 => by cases hoid2; rfl⟩
    | error e2 => exact ⟨rfl, fun oid2 hoid2 => by cases hoid2⟩

/-- C8 counterexample: at target price 0.333 the fallback GTC order is
placed at round(max(0.8 * 0.333, 0.02), 2) = 0.27, which differs from
max(0.8 * 0.333, 0.02) = 0.2664: the resting order price is rounded to two
decimals, not the bare maximum. -/
theorem c8_counterexample :
    (sell_robust (none, false, some "err") [(1/2, 100)] [] (.ok "oid1") 10 (333/1000)).2
      = some { price := 27/100, size := 10, side := "SELL" } ∧
    (27 / 100 : ℚ) ≠ max ((333/1000) * (8/10)) (2/100) := by
  have hside : (strLower "sell" == "sell") = true := by decide
  have hliq : check_liquidity [(1/2, 100)] [] "sell" 10 (5/100) = true := by
    norm_num [check_liquidity, hside, liqLoop, priceOk]
  have hmax : max ((333:ℚ)/1000 * (8/10)) (2/100) = 333/1250 := by
    rw [max_eq_left (by norm_num)]
    norm_num
  have hlp : roundq (max ((333:ℚ)/1000 * (8/10)) (2/100)) 2 = 27/100 := by
    rw [hmax]
    exact roundq_eval 27 (by norm_num) (by norm_num) (by norm_num)
  constructor
  · simp only [sell_robust]
    rw [if_neg (by simp), hliq]
    simp only [Bool.not_true, Bool.false_eq_true, if_false]
    rw [hlp]
  · rw [hmax]
    norm_num

theorem c8_witness :
    (sell_robust (none, false, some "e") [(1/2, 100)] [] (.ok "oid") 10 (1/2)).2
      = some { price := roundq (max ((1:ℚ)/2 * (8 / 10)) (2 / 100)) 2,
               size := 10, side := "SELL" } ∧
    (sell_robust (none, false, some "e") [(1/2, 100)] [] (.ok "oid") 10 (1/2)).1
      = (some "oid", true, some "Placed Aggressive GTC Limit") := by
  have hside : (strLower "sell" == "sell") = true := by decide
  have hliq : check_liquidity [(1/2, 100)] [] "sell" 10 (5/100) = true := by
    norm_num [check_liquidity, hside, liqLoop, priceOk]
  have h := (sell_robust_fallback (none, false, some "e") [(1/2, 100)] []
    (.ok "oid") 10 (1/2) rfl).2.1 hliq
  exact ⟨h.1, h.2 "oid" rfl⟩

/-- C9: extract_json_from_response is total and only ever returns values
produced by the JSON parser (or none); and extract_implications_for_market
returns the empty cover list whenever the oracle call raises or the reply
fails to parse. -/
theorem oracle_parse_never_fatal :
    (∀ (loads : String → Option Json) (text : String) (j : Json),
      extract_json_from_response loads text = some j → ∃ s, loads s = some j) ∧
    (∀ (loads : String → Option Json) (target : Market) (others : List Market)
      (e : String),
      extract_implications_for_market (.error e) loads target others = []) ∧
    (∀ (loads : String → Option Json) (target : Market) (others : List Market)
      (response : String),
      extract_json_from_response loads response = none →
      extract_implications_for_market (.ok response) loads target others = []) := by
  refine ⟨?_, fun _ _ _ _ => rfl, ?_⟩
  · intro loads text j h
    rw [extract_json_from_response] at h
    cases hl : loads (strTrim ((strSplitOn ((strSplitOn (strTrim text) "```json").getD 1
        (strTrim text)) "```").getD 0 ((strSplitOn (strTrim text) "```json").getD 1
        (strTrim text)))) with
    | some j2 =>
      rw [hl] at h
      exact ⟨_, hl.trans h⟩
    | none =>
      rw [hl] at h
      cases hb : extractBraced (strTrim ((strSplitOn ((strSplitOn (strTrim text)
          "```json").getD 1 (strTrim text)) "```").getD 0 ((strSplitOn (strTrim text)
          "```json").getD 1 (strTrim text)))) with
      | some seg =>
        rw [hb] at h
        exact ⟨seg, h⟩
      | none =>
        rw [hb] at h
        exact absurd h (by simp)
  · intro loads target others response h
    rw [extract_implications_for_market, h]

theorem c9_witness :
    extract_json_from_response (fun _ => none) "hello" = none ∧
    extract_implications_for_market (.ok "hello") (fun _ => none)
      ⟨"m1", "q", "s", "", "", 1/2, 1/2⟩ [] = [] :=
  ⟨rfl, oracle_parse_never_fatal.2.2 (fun _ => none)
    ⟨"m1", "q", "s", "", "", 1/2, 1/2⟩ [] "hello" rfl⟩

/-- C10 counterexample: when the first POST fails with a transport-level
request error (not a 429 response) and the second succeeds, complete returns
the success after a 1 second wait instead of raising the first error: not
every non-429 error surfaces immediately. -/
theorem c10_counterexample :
    complete (fun n => if n = 0 then .requestError "connection reset" else .success "ok")
      = (.ok "ok", [1]) ∧
    (fun n => if n = 0 then (ReqOutcome.requestError "connection reset")
      else .success "ok") 0 = .requestError "connection reset" :=
  ⟨rfl, rfl⟩

/-- C10 (amended): the completion loop retries a 429 waiting 2 to the power
attempt, also retries a transport-level request error waiting 1 second when
not on the final attempt, raises any other HTTP status error immediately,
raises a request error on the final attempt, raises RuntimeError when the
3-attempt bound is exhausted, and complete runs the loop from attempt 0 with
that bound. -/
theorem complete_retry_policy (outcomes : ℕ → ReqOutcome) :
    LLM_MAX_RETRIES = 3 ∧
    (∀ (attempt fuel code : ℕ), outcomes attempt = .httpStatus code → code ≠ 429 →
      completeGo outcomes attempt (fuel + 1) = (.error (.httpError code), [])) ∧
    (∀ (attempt fuel : ℕ), outcomes attempt = .httpStatus 429 →
      completeGo outcomes attempt (fuel + 1)
        = ((completeGo outcomes (attempt + 1) fuel).1,
           2 ^ attempt :: (completeGo outcomes (attempt + 1) fuel).2)) ∧
    (∀ (attempt fuel : ℕ) (e : String), outcomes attempt = .requestError e →
      attempt < LLM_MAX_RETRIES - 1 →
      completeGo outcomes attempt (fuel + 1)
        = ((completeGo outcomes (attempt + 1) fuel).1,
           1 :: (completeGo outcomes (attempt + 1) fuel).2)) ∧
    (∀ (attempt fuel : ℕ) (e : String), outcomes attempt = .requestError e →
      ¬(attempt < LLM_MAX_RETRIES - 1) →
      completeGo outcomes attempt (fuel + 1) = (.error (.reqError e), [])) ∧
    (∀ attempt : ℕ, completeGo outcomes attempt 0 = (.error .runtimeFailed, [])) ∧
    complete outcomes = completeGo outcomes 0 LLM_MAX_RETRIES := by
  refine ⟨rfl, ?_, ?_, ?_, ?_, fun _ => rfl, rfl⟩
  · intro attempt fuel code h hne
    simp only [completeGo, h]
    rw [if_neg hne]
  · intro attempt fuel h
    simp only [completeGo, h]
    rw [if_pos trivial]
  · intro attempt fuel e h hlt
    simp only [completeGo, h]
    rw [if_pos hlt]
  · intro attempt fuel e h hge
    simp only [completeGo, h]
    rw [if_neg hge]

theorem c10_witness :
    completeGo (fun _ => .httpStatus 500) 0 (2 + 1)
      = (.error (.httpError 500), []) :=
  (complete_retry_policy (fun _ => .httpStatus 500)).2.1 0 2 500 rfl (by decide)

end Polyclaw
